import Mathlib

/-! Formal model of the cargomail repository layer: the per-user history-based
synchronization core (Contact, Blob and Draft stores), embedded shallowly from
the Go sources.  SQL tables become Lean lists of rows, the SQL queries of
List/Sync become filters over those lists, and the mutating statements become
store transformers.  Schema-level behavior that the reviewed sources delegate
to the database (the per-user history sequencer, the lastStmt transitions and
the tombstone insertion performed by triggers) is modelled from the spec and
marked as such on each definition. -/

namespace Cargomail

/-- Authenticated user object injected by the middleware: account id and
nullable device id. -/
structure User where
  id : Int
  deviceId : Option String
deriving DecidableEq

/-- Repository error taxonomy: `notFound` and `duplicate` mirror the dedicated
error values of the Go repositories; `storage` stands for any underlying
persistence failure. -/
inductive RepoErr where
  | notFound
  | duplicate
  | storage
deriving DecidableEq

/-- Device-attribution tag prepended to a device id when a mutation is
recorded. -/
def deviceTag : String := "device:"

/-- Modelled from the spec: the helper `getPrefixedDeviceId`, called by every
mutating repository statement, is not among the reviewed sources; per the
device-attribution design (spec section 3 and 4.2) and the helper's name it
returns the caller's device id with the fixed device tag prepended, and `none`
for a null device id. -/
def getPrefixedDeviceId (deviceId : Option String) : Option String :=
  deviceId.map (fun d => deviceTag ++ d)

/-- SQL three-valued evaluation of the filter
`(device_id <> $2 OR device_id IS NULL)`: a NULL row device passes via the
IS NULL branch; a non-null row device compared against a NULL caller device
yields NULL (not true), so the row is excluded; otherwise plain inequality. -/
def deviceFilter (rowDev callerDev : Option String) : Bool :=
  match rowDev, callerDev with
  | none, _ => true
  | some _, none => false
  | some d, some c => decide (d ≠ c)

/-- Current value of the per-user history sequence (one row per user in the
`*_history_seq` table, modelled as an association list). -/
def seqOf : List (Int × Int) → Int → Int
  | [], _ => 0
  | e :: t, uid => if e.1 = uid then e.2 else seqOf t uid

/-- Overwrite the per-user history sequence entry with a new value. -/
def setSeq (seqs : List (Int × Int)) (uid v : Int) : List (Int × Int) :=
  seqs.map (fun e => if e.1 = uid then (e.1, v) else e)

/-- Sort rows by creation time, descending (`ORDER BY created_at DESC`). -/
def createdDesc {α : Type} (f : α → Int) : α → α → Prop :=
  fun a b => f b ≤ f a

instance instDecCreatedDesc {α : Type} (f : α → Int) :
    DecidableRel (createdDesc f) :=
  fun a b => inferInstanceAs (Decidable (f b ≤ f a))

instance instTotalCreatedDesc {α : Type} (f : α → Int) :
    IsTotal α (createdDesc f) :=
  ⟨fun a b => le_total (f b) (f a)⟩

instance instTransCreatedDesc {α : Type} (f : α → Int) :
    IsTrans α (createdDesc f) :=
  ⟨fun _ _ _ hab hbc => le_trans hbc hab⟩

def sortByCreatedDesc {α : Type} (f : α → Int) (l : List α) : List α :=
  List.insertionSort (createdDesc f) l

/-- Modelled from the spec: the per-row effect of a bulk UPDATE under the
schema triggers that are absent from the reviewed sources — each affected row
is rewritten by `upd` and stamped with the next value of the per-user history
sequence; unaffected rows are kept in place.  Returns the rewritten table and
the final sequence value. -/
def stampFold {α : Type} (p : α → Bool) (upd : α → Int → α) :
    List α → Int → List α × Int
  | [], s => ([], s)
  | r :: rest, s =>
    if p r then
      (upd r (s + 1) :: (stampFold p upd rest (s + 1)).1,
       (stampFold p upd rest (s + 1)).2)
    else
      (r :: (stampFold p upd rest s).1, (stampFold p upd rest s).2)

/-! Generic lemmas about the query and mutation combinators. -/

theorem mem_sortByCreatedDesc {α : Type} (f : α → Int) (l : List α) (x : α) :
    x ∈ sortByCreatedDesc f l ↔ x ∈ l := by
  unfold sortByCreatedDesc
  exact List.mem_insertionSort (createdDesc f)

theorem mem_sortFilter {α : Type} (f : α → Int) (p : α → Bool) (l : List α)
    (x : α) :
    x ∈ sortByCreatedDesc f (l.filter p) ↔ x ∈ l ∧ p x = true := by
  rw [mem_sortByCreatedDesc, List.mem_filter]

theorem perm_sortByCreatedDesc {α : Type} (f : α → Int) (l : List α) :
    (sortByCreatedDesc f l).Perm l :=
  List.perm_insertionSort (createdDesc f) l

theorem pairwise_sortByCreatedDesc {α : Type} (f : α → Int) (l : List α) :
    (sortByCreatedDesc f l).Pairwise (fun a b => f b ≤ f a) :=
  List.sorted_insertionSort (createdDesc f) l

theorem seqOf_setSeq_ne (seqs : List (Int × Int)) (uid w x : Int)
    (hx : x ≠ uid) : seqOf (setSeq seqs uid w) x = seqOf seqs x := by
  induction seqs with
  | nil => rfl
  | cons e t ih =>
    by_cases hk : e.1 = uid
    · simp [setSeq, seqOf, hk, hx, Ne.symm hx] at ih ⊢
      exact ih
    · by_cases hex : e.1 = x
      · simp [setSeq, seqOf, hk, hex, hx, Ne.symm hx]
      · simp [setSeq, seqOf, hk, hex] at ih ⊢
        exact ih

theorem seqOf_setSeq_self (seqs : List (Int × Int)) (uid x : Int) :
    seqOf (setSeq seqs uid (seqOf seqs uid)) x = seqOf seqs x := by
  by_cases hx : x = uid
  · subst hx
    induction seqs with
    | nil => rfl
    | cons e t ih =>
      by_cases hk : e.1 = x
      · simp [setSeq, seqOf, hk]
      · simp [setSeq, seqOf, hk] at ih ⊢
        exact ih
  · exact seqOf_setSeq_ne seqs uid _ x hx

theorem stampFold_length {α : Type} (p : α → Bool) (upd : α → Int → α)
    (l : List α) (s : Int) : (stampFold p upd l s).1.length = l.length := by
  induction l generalizing s with
  | nil => rfl
  | cons r rest ih =>
    by_cases hp : p r = true <;> simp [stampFold, hp, ih]

theorem stampFold_nomatch {α : Type} (p : α → Bool) (upd : α → Int → α)
    (l : List α) (s : Int) (h : ∀ r ∈ l, p r = false) :
    stampFold p upd l s = (l, s) := by
  induction l generalizing s with
  | nil => rfl
  | cons r rest ih =>
    have hr : p r = false := h r (List.mem_cons_self r rest)
    have hrest : ∀ x ∈ rest, p x = false := fun x hx => h x (List.mem_cons_of_mem r hx)
    simp [stampFold, hr, ih s hrest]

theorem stampFold_mem_src {α : Type} (p : α → Bool) (upd : α → Int → α)
    (l : List α) (s : Int) (y : α) (hy : y ∈ l) (hp : p y = false) :
    y ∈ (stampFold p upd l s).1 := by
  induction l generalizing s with
  | nil => cases hy
  | cons r rest ih =>
    rcases List.mem_cons.mp hy with h | h
    · subst h
      simp [stampFold, hp]
    · by_cases hr : p r = true
      · rw [stampFold, if_pos hr]
        exact List.mem_cons_of_mem _ (ih (s + 1) h)
      · rw [stampFold, if_neg hr]
        exact List.mem_cons_of_mem _ (ih s h)

theorem stampFold_mem_dst {α : Type} (p : α → Bool) (upd : α → Int → α)
    (l : List α) (s : Int) (x : α) (hx : x ∈ (stampFold p upd l s).1) :
    (∃ y ∈ l, p y = false ∧ x = y) ∨
      (∃ y ∈ l, ∃ h : Int, p y = true ∧ s < h ∧ x = upd y h) := by
  induction l generalizing s with
  | nil => cases hx
  | cons r rest ih =>
    by_cases hr : p r = true
    · rw [stampFold, if_pos hr] at hx
      rcases List.mem_cons.mp hx with h | h
      · exact Or.inr ⟨r, List.mem_cons_self r rest, s + 1, hr, by omega, h⟩
      · rcases ih (s + 1) h with ⟨y, hy, hpy, hxy⟩ | ⟨y, hy, hh, hpy, hsh, hxy⟩
        · exact Or.inl ⟨y, List.mem_cons_of_mem r hy, hpy, hxy⟩
        · exact Or.inr ⟨y, List.mem_cons_of_mem r hy, hh, hpy, by omega, hxy⟩
    · rw [stampFold, if_neg hr] at hx
      rcases List.mem_cons.mp hx with h | h
      · exact Or.inl ⟨r, List.mem_cons_self r rest,
          Bool.eq_false_iff.mpr hr, h⟩
      · rcases ih s h with ⟨y, hy, hpy, hxy⟩ | ⟨y, hy, hh, hpy, hsh, hxy⟩
        · exact Or.inl ⟨y, List.mem_cons_of_mem r hy, hpy, hxy⟩
        · exact Or.inr ⟨y, List.mem_cons_of_mem r hy, hh, hpy, hsh, hxy⟩

theorem stampFold_mem_hit {α : Type} (p : α → Bool) (upd : α → Int → α)
    (l : List α) (s : Int) (y : α) (hy : y ∈ l) (hp : p y = true) :
    ∃ h : Int, s < h ∧ upd y h ∈ (stampFold p upd l s).1 := by
  induction l generalizing s with
  | nil => cases hy
  | cons r rest ih =>
    rcases List.mem_cons.mp hy with h | h
    · subst h
      exact ⟨s + 1, by omega, by simp [stampFold, hp]⟩
    · by_cases hr : p r = true
      · rcases ih (s + 1) h with ⟨hv, hlt, hmem⟩
        exact ⟨hv, by omega, by simp [stampFold, hr, hmem]⟩
      · rcases ih s h with ⟨hv, hlt, hmem⟩
        exact ⟨hv, hlt, by simp [stampFold, hr, hmem]⟩

theorem stampFold_filter_frame {α : Type} (p q : α → Bool) (upd : α → Int → α)
    (l : List α) (s : Int)
    (hpq : ∀ y, p y = true → q y = false)
    (hupd : ∀ y h, q (upd y h) = q y) :
    (stampFold p upd l s).1.filter q = l.filter q := by
  induction l generalizing s with
  | nil => rfl
  | cons r rest ih =>
    by_cases hr : p r = true
    · have hq : q r = false := hpq r hr
      have hq2 : q (upd r (s + 1)) = false := by rw [hupd, hq]
      simp [stampFold, hr, List.filter, hq, hq2, ih (s + 1)]
    · by_cases hqr : q r = true <;>
        simp [stampFold, hr, List.filter, hqr, ih s]

/-! Contact store: the `contact`, `contact_deleted` and `contact_history_seq`
tables and the operations of `ContactRepository` (src part_002). -/

/-- One row of the `contact` table, column for column. -/
structure ContactRow where
  id : String
  userId : Int
  emailAddress : Option String
  firstName : Option String
  lastName : Option String
  createdAt : Int
  modifiedAt : Option Int
  timelineId : Int
  historyId : Int
  lastStmt : Int
  deviceId : Option String
deriving DecidableEq

/-- One row of the `contact_deleted` tombstone table. -/
structure ContactTombstone where
  id : String
  userId : Int
  historyId : Int
  deviceId : Option String
deriving DecidableEq

/-- The persisted contact state: entity table, tombstone table and per-user
history sequence. -/
structure ContactStore where
  contacts : List ContactRow
  tombstones : List ContactTombstone
  seqs : List (Int × Int)
deriving DecidableEq

structure ContactListResult where
  history : Int
  contacts : List ContactRow
deriving DecidableEq

structure ContactSyncResult where
  history : Int
  inserted : List ContactRow
  updated : List ContactRow
  trashed : List ContactRow
  deleted : List ContactTombstone
deriving DecidableEq

/-- WHERE clause of the contact List query:
`user_id = $1 AND last_stmt < 2`. -/
def contactLivePred (uid : Int) (r : ContactRow) : Bool :=
  decide (r.userId = uid) && decide (r.lastStmt < 2)

/-- WHERE clause of the three entity-bucket Sync queries: user, bucket state,
device exclusion, history window. -/
def contactBucketPred (uid : Int) (callerDev : Option String) (since : Int)
    (stmt : Int) (r : ContactRow) : Bool :=
  decide (r.userId = uid) && decide (r.lastStmt = stmt) &&
    deviceFilter r.deviceId callerDev && decide (since < r.historyId)

/-- WHERE clause of the tombstone Sync query on `contact_deleted`. -/
def contactTombPred (uid : Int) (callerDev : Option String) (since : Int)
    (t : ContactTombstone) : Bool :=
  decide (t.userId = uid) && deviceFilter t.deviceId callerDev &&
    decide (since < t.historyId)

/-- `ContactRepository.List`: live rows of the user ordered by creation time
descending, plus the history high-water-mark read in the same transaction. -/
def contactList (st : ContactStore) (u : User) : ContactListResult :=
  { history := seqOf st.seqs u.id
    contacts := sortByCreatedDesc (fun r => r.createdAt)
      (st.contacts.filter (contactLivePred u.id)) }

/-- `ContactRepository.Sync`: four bucket queries against one snapshot; the
three entity buckets are ordered by creation time descending, the tombstone
bucket is unordered; the high-water-mark is read in the same transaction.
Note the device filter compares against the raw `user.DeviceId`. -/
def contactSync (st : ContactStore) (u : User) (since : Int) :
    ContactSyncResult :=
  { history := seqOf st.seqs u.id
    inserted := sortByCreatedDesc (fun r => r.createdAt)
      (st.contacts.filter (contactBucketPred u.id u.deviceId since 0))
    updated := sortByCreatedDesc (fun r => r.createdAt)
      (st.contacts.filter (contactBucketPred u.id u.deviceId since 1))
    trashed := sortByCreatedDesc (fun r => r.createdAt)
      (st.contacts.filter (contactBucketPred u.id u.deviceId since 2))
    deleted := st.tombstones.filter (contactTombPred u.id u.deviceId since) }

/-- Uniqueness constraint `contact.email_address, contact.firstname,
contact.lastname` checked by Create. -/
def contactDupPred (email first last : Option String) (r : ContactRow) : Bool :=
  decide (r.emailAddress = email) && decide (r.firstName = first) &&
    decide (r.lastName = last)

/-- Modelled from the spec where the schema is involved:
`ContactRepository.Create` runs the INSERT of src part_002 (user id, prefixed
device id and the three domain columns); the id and creation time are
server-assigned (parameters `freshId` and `now` here) and the schema trigger,
absent from the reviewed sources, assigns `historyId` from the bumped per-user
sequence and `lastStmt = 0`. -/
def contactCreate (st : ContactStore) (u : User) (freshId : String) (now : Int)
    (email first last : Option String) :
    Except RepoErr (ContactStore × ContactRow) :=
  if st.contacts.any (contactDupPred email first last) then
    .error .duplicate
  else
    let newSeq := seqOf st.seqs u.id + 1
    let row : ContactRow :=
      { id := freshId, userId := u.id, emailAddress := email,
        firstName := first, lastName := last, createdAt := now,
        modifiedAt := none, timelineId := 0, historyId := newSeq,
        lastStmt := 0, deviceId := getPrefixedDeviceId u.deviceId }
    let st' : ContactStore :=
      { st with contacts := st.contacts ++ [row],
                seqs := setSeq st.seqs u.id newSeq }
    .ok (st', row)

/-- WHERE clause of the contact UPDATE:
`user_id = $5 AND id = $6 AND last_stmt <> 2`. -/
def contactUpdatePred (uid : Int) (cid : String) (r : ContactRow) : Bool :=
  decide (r.userId = uid) && decide (r.id = cid) && decide (r.lastStmt ≠ 2)

/-- Modelled from the spec where the schema is involved:
`ContactRepository.Update` runs the UPDATE of src part_002 (domain columns and
prefixed device id, keyed by user, id and `last_stmt <> 2`, answering
`ErrContactNotFound` on zero rows and `ErrDuplicateContact` when the new
email+firstname+lastname identity collides with a row not being updated, per
the uniqueness constraint classified at part_002 line 363); the schema
trigger, absent from the reviewed sources, bumps `historyId` from the
per-user sequence, sets `lastStmt = 1` and sets `modifiedAt`. -/
def contactUpdate (st : ContactStore) (u : User) (cid : String) (now : Int)
    (email first last : Option String) :
    Except RepoErr (ContactStore × ContactRow) :=
  let newSeq := seqOf st.seqs u.id + 1
  let upd : ContactRow → ContactRow := fun r =>
    { r with emailAddress := email, firstName := first, lastName := last,
             deviceId := getPrefixedDeviceId u.deviceId, lastStmt := 1,
             historyId := newSeq, modifiedAt := some now }
  match st.contacts.find? (contactUpdatePred u.id cid) with
  | none => .error .notFound
  | some r =>
      if st.contacts.any (fun x =>
          !(contactUpdatePred u.id cid x) &&
            contactDupPred email first last x) then
        .error .duplicate
      else
        let st' : ContactStore :=
          { st with
            contacts := st.contacts.map
              (fun x => if contactUpdatePred u.id cid x then upd x else x),
            seqs := setSeq st.seqs u.id newSeq }
        .ok (st', upd r)

/-- WHERE clause of the bulk statements:
`user_id = $2 AND id IN (SELECT value FROM json_each($3))`. -/
def contactIdPred (uid : Int) (ids : List String) (r : ContactRow) : Bool :=
  decide (r.userId = uid) && decide (r.id ∈ ids)

/-- Row effect of the trash UPDATE plus the history trigger. -/
def trashStamp (dev : Option String) (r : ContactRow) (h : Int) : ContactRow :=
  { r with lastStmt := 2, deviceId := dev, historyId := h }

/-- Row effect of the untrash UPDATE plus the history trigger. -/
def untrashStamp (dev : Option String) (r : ContactRow) (h : Int) :
    ContactRow :=
  { r with lastStmt := 0, deviceId := dev, historyId := h }

/-- Modelled from the spec where the schema is involved:
`ContactRepository.Trash` is a no-op on an empty id set, else sets
`last_stmt = 2` and the prefixed device id on the caller's listed rows; the
schema trigger, absent from the reviewed sources, stamps each affected row
with the next per-user history sequence value. -/
def contactTrash (st : ContactStore) (u : User) (ids : List String) :
    ContactStore :=
  if ids.isEmpty then st
  else
    let res := stampFold (contactIdPred u.id ids)
      (trashStamp (getPrefixedDeviceId u.deviceId))
      st.contacts (seqOf st.seqs u.id)
    { st with contacts := res.1, seqs := setSeq st.seqs u.id res.2 }

/-- Modelled from the spec where the schema is involved:
`ContactRepository.Untrash` is a no-op on an empty id set, else sets
`last_stmt = 0` and the prefixed device id on the caller's listed rows,
unconditionally on their previous state; the schema trigger, absent from the
reviewed sources, stamps each affected row with the next per-user history
sequence value. -/
def contactUntrash (st : ContactStore) (u : User) (ids : List String) :
    ContactStore :=
  if ids.isEmpty then st
  else
    let res := stampFold (contactIdPred u.id ids)
      (untrashStamp (getPrefixedDeviceId u.deviceId))
      st.contacts (seqOf st.seqs u.id)
    { st with contacts := res.1, seqs := setSeq st.seqs u.id res.2 }

/-- `ContactRepository.Delete`: a no-op on an empty id set, else removes the
caller's listed rows; no contact tombstone is written by the reviewed code. -/
def contactDelete (st : ContactStore) (u : User) (ids : List String) :
    ContactStore :=
  if ids.isEmpty then st
  else
    let kept := st.contacts.filter (fun r => !(contactIdPred u.id ids r))
    { st with contacts := kept }

/-! Blob store: the `Blob`, `BlobDeleted` and `BlobHistorySeq` tables and the
operations of `BlobRepository` (src part_003). -/

/-- One row of the `Blob` table, column for column. -/
structure BlobRow where
  uri : String
  userId : Int
  hash : String
  name : String
  snippet : String
  path : String
  size : Int
  contentType : String
  createdAt : Int
  modifiedAt : Option Int
  timelineId : Int
  historyId : Int
  lastStmt : Int
  deviceId : Option String
deriving DecidableEq

/-- One row of the `BlobDeleted` tombstone table. -/
structure BlobTombstone where
  uri : String
  userId : Int
  historyId : Int
  deviceId : Option String
deriving DecidableEq

/-- The persisted blob state: entity table, tombstone table and per-user
history sequence. -/
structure BlobStore where
  blobs : List BlobRow
  tombstones : List BlobTombstone
  seqs : List (Int × Int)
deriving DecidableEq

structure BlobListResult where
  history : Int
  blobs : List BlobRow
deriving DecidableEq

structure BlobSyncResult where
  history : Int
  inserted : List BlobRow
  updated : List BlobRow
  trashed : List BlobRow
  deleted : List BlobTombstone
deriving DecidableEq

/-- WHERE clause of the blob List query: `"userId" = $1 AND "lastStmt" < 2`. -/
def blobLivePred (uid : Int) (r : BlobRow) : Bool :=
  decide (r.userId = uid) && decide (r.lastStmt < 2)

/-- WHERE clause of the three entity-bucket blob Sync queries. -/
def blobBucketPred (uid : Int) (callerDev : Option String) (since : Int)
    (stmt : Int) (r : BlobRow) : Bool :=
  decide (r.userId = uid) && decide (r.lastStmt = stmt) &&
    deviceFilter r.deviceId callerDev && decide (since < r.historyId)

/-- WHERE clause of the tombstone blob Sync query on `BlobDeleted`. -/
def blobTombPred (uid : Int) (callerDev : Option String) (since : Int)
    (t : BlobTombstone) : Bool :=
  decide (t.userId = uid) && deviceFilter t.deviceId callerDev &&
    decide (since < t.historyId)

/-- `BlobRepository.List`: live rows of the user — the blob List query has no
ORDER BY, so the table order is kept — plus the history high-water-mark read
in the same transaction. -/
def blobList (st : BlobStore) (u : User) : BlobListResult :=
  { history := seqOf st.seqs u.id
    blobs := st.blobs.filter (blobLivePred u.id) }

/-- `BlobRepository.Sync`: same four-bucket shape as the contact Sync; the
three entity buckets are ordered by creation time descending, the tombstone
bucket is unordered. -/
def blobSync (st : BlobStore) (u : User) (since : Int) : BlobSyncResult :=
  { history := seqOf st.seqs u.id
    inserted := sortByCreatedDesc (fun r => r.createdAt)
      (st.blobs.filter (blobBucketPred u.id u.deviceId since 0))
    updated := sortByCreatedDesc (fun r => r.createdAt)
      (st.blobs.filter (blobBucketPred u.id u.deviceId since 1))
    trashed := sortByCreatedDesc (fun r => r.createdAt)
      (st.blobs.filter (blobBucketPred u.id u.deviceId since 2))
    deleted := st.tombstones.filter (blobTombPred u.id u.deviceId since) }

/-- The zero-value `Blob` record returned by `GetBlobByUri` when no row is
found. -/
def zeroBlob : BlobRow :=
  { uri := "", userId := 0, hash := "", name := "", snippet := "", path := "",
    size := 0, contentType := "", createdAt := 0, modifiedAt := none,
    timelineId := 0, historyId := 0, lastStmt := 0, deviceId := none }

/-- WHERE clause of `GetBlobByUri`:
`"userId" = $1 AND "uri" = $2 AND "lastStmt" < 2`. -/
def blobUriPred (uid : Int) (uri : String) (r : BlobRow) : Bool :=
  decide (r.userId = uid) && decide (r.uri = uri) && decide (r.lastStmt < 2)

/-- `BlobRepository.GetBlobByUri`: point lookup; a row-not-found condition is
answered with the zero-value record and no error. -/
def blobGetByUri (st : BlobStore) (u : User) (uri : String) :
    Except RepoErr BlobRow :=
  match st.blobs.find? (blobUriPred u.id uri) with
  | some r => .ok r
  | none => .ok zeroBlob

/-- WHERE clause of the blob bulk statements:
`"userId" = $1 AND "uri" IN (SELECT value FROM json_each($2, $.uris))`. -/
def blobUriListPred (uid : Int) (uris : List String) (r : BlobRow) : Bool :=
  decide (r.userId = uid) && decide (r.uri ∈ uris)

/-- Tombstone written by the deletion trigger for a removed blob row. -/
def blobTombOf (r : BlobRow) (h : Int) : BlobTombstone :=
  { uri := r.uri, userId := r.userId, historyId := h, deviceId := none }

/-- Walk the blob table removing the matching rows; each removed row yields a
trigger tombstone stamped with the next history sequence value.  Returns the
kept rows, the new tombstones and the final sequence value. -/
def blobDeleteFold (uid : Int) (uris : List String) :
    List BlobRow → Int → List BlobRow × (List BlobTombstone × Int)
  | [], s => ([], ([], s))
  | r :: rest, s =>
    if blobUriListPred uid uris r then
      let res := blobDeleteFold uid uris rest (s + 1)
      (res.1, (blobTombOf r (s + 1) :: res.2.1, res.2.2))
    else
      let res := blobDeleteFold uid uris rest s
      (r :: res.1, res.2)

/-- Modelled from the spec where the schema is involved: the first statement
of `BlobRepository.Delete` removes the caller's listed rows; the schema
trigger, absent from the reviewed sources, inserts one `BlobDeleted` tombstone
per removed row, stamped with the next per-user history sequence value and no
device attribution yet. -/
def blobApplyDelete (st : BlobStore) (u : User) (uris : List String) :
    BlobStore :=
  let res := blobDeleteFold u.id uris st.blobs (seqOf st.seqs u.id)
  { st with blobs := res.1, tombstones := st.tombstones ++ res.2.1,
            seqs := setSeq st.seqs u.id res.2.2 }

/-- The second statement of `BlobRepository.Delete`: stamp the matching
tombstone rows with the caller's raw (unprefixed) device id. -/
def blobStampTombstones (ts : List BlobTombstone) (u : User)
    (uris : List String) : List BlobTombstone :=
  ts.map (fun t =>
    if decide (t.userId = u.id) && decide (t.uri ∈ uris) then
      { t with deviceId := u.deviceId }
    else t)

/-- `BlobRepository.Delete`: a no-op on an empty uri set, else one transaction
holding the row removal (with its tombstone trigger) and the tombstone device
stamp; the three boolean parameters say whether the DELETE, the UPDATE and the
COMMIT succeed, and any failure rolls the visible store back to the input.
The result pairs the visible store with the reported error, if any. -/
def blobDelete (delOk updOk commitOk : Bool) (st : BlobStore) (u : User)
    (uris : List String) : BlobStore × Option RepoErr :=
  if uris.isEmpty then (st, none)
  else if !delOk then (st, some .storage)
  else
    let st1 := blobApplyDelete st u uris
    if !updOk then (st, some .storage)
    else
      let st2 := { st1 with
                   tombstones := blobStampTombstones st1.tombstones u uris }
      if !commitOk then (st, some .storage)
      else (st2, none)

/-! Draft store: the `Draft` table rows and the `DraftRepository` operations
the claims name (src part_005). -/

/-- One row of the `Draft` table; the serialized message payload column is
kept opaque. -/
structure DraftRow where
  id : String
  userId : Int
  messageUid : String
  parentUid : Option String
  threadUid : String
  unread : Bool
  starred : Bool
  payload : Option String
  labelIds : Option String
  createdAt : Int
  modifiedAt : Option Int
  timelineId : Int
  historyId : Int
  lastStmt : Int
  deviceId : Option String
deriving DecidableEq

/-- The persisted draft state used by the claims: entity table and per-user
history sequence. -/
structure DraftStore where
  drafts : List DraftRow
  seqs : List (Int × Int)
deriving DecidableEq

/-- WHERE clause of the draft UPDATE:
`"userId" = $3 AND "id" = $4 AND "lastStmt" <> 2`. -/
def draftUpdatePred (uid : Int) (did : String) (r : DraftRow) : Bool :=
  decide (r.userId = uid) && decide (r.id = did) && decide (r.lastStmt ≠ 2)

/-- Modelled from the spec where the schema is involved:
`DraftRepository.Update` runs the UPDATE of src part_005 (payload and prefixed
device id, keyed by user, id and `lastStmt <> 2`, answering `ErrDraftNotFound`
on zero rows); the schema trigger, absent from the reviewed sources, bumps
`historyId`, sets `lastStmt = 1` and sets `modifiedAt`. -/
def draftUpdate (st : DraftStore) (u : User) (did : String) (now : Int)
    (payload : Option String) : Except RepoErr (DraftStore × DraftRow) :=
  let newSeq := seqOf st.seqs u.id + 1
  let upd : DraftRow → DraftRow := fun r =>
    { r with payload := payload,
             deviceId := getPrefixedDeviceId u.deviceId, lastStmt := 1,
             historyId := newSeq, modifiedAt := some now }
  match st.drafts.find? (draftUpdatePred u.id did) with
  | none => .error .notFound
  | some r =>
      let st' : DraftStore :=
        { st with
          drafts := st.drafts.map
            (fun x => if draftUpdatePred u.id did x then upd x else x),
          seqs := setSeq st.seqs u.id newSeq }
      .ok (st', upd r)

/-- WHERE clause of the draft bulk statements. -/
def draftIdPred (uid : Int) (ids : List String) (r : DraftRow) : Bool :=
  decide (r.userId = uid) && decide (r.id ∈ ids)

/-- Row effect of the draft untrash UPDATE plus the history trigger. -/
def draftUntrashStamp (dev : Option String) (r : DraftRow) (h : Int) :
    DraftRow :=
  { r with lastStmt := 0, deviceId := dev, historyId := h }

/-- Modelled from the spec where the schema is involved:
`DraftRepository.Untrash` is a no-op on an empty id set, else sets
`lastStmt = 0` and the prefixed device id on the caller's listed rows,
unconditionally on their previous state; the schema trigger, absent from the
reviewed sources, stamps each affected row with the next per-user history
sequence value. -/
def draftUntrash (st : DraftStore) (u : User) (ids : List String) :
    DraftStore :=
  if ids.isEmpty then st
  else
    let res := stampFold (draftIdPred u.id ids)
      (draftUntrashStamp (getPrefixedDeviceId u.deviceId))
      st.drafts (seqOf st.seqs u.id)
    { st with drafts := res.1, seqs := setSeq st.seqs u.id res.2 }

/-! Bridging lemmas: Prop-level characterizations of the query predicates. -/

theorem contactLivePred_iff (uid : Int) (r : ContactRow) :
    contactLivePred uid r = true ↔ r.userId = uid ∧ r.lastStmt < 2 := by
  simp [contactLivePred]

theorem contactBucketPred_iff (uid : Int) (dev : Option String) (since : Int)
    (stmt : Int) (r : ContactRow) :
    contactBucketPred uid dev since stmt r = true ↔
      r.userId = uid ∧ r.lastStmt = stmt ∧ deviceFilter r.deviceId dev = true ∧
        since < r.historyId := by
  simp [contactBucketPred, and_assoc]

theorem contactTombPred_iff (uid : Int) (dev : Option String) (since : Int)
    (t : ContactTombstone) :
    contactTombPred uid dev since t = true ↔
      t.userId = uid ∧ deviceFilter t.deviceId dev = true ∧
        since < t.historyId := by
  simp [contactTombPred, and_assoc]

theorem blobLivePred_iff (uid : Int) (r : BlobRow) :
    blobLivePred uid r = true ↔ r.userId = uid ∧ r.lastStmt < 2 := by
  simp [blobLivePred]

theorem blobBucketPred_iff (uid : Int) (dev : Option String) (since : Int)
    (stmt : Int) (r : BlobRow) :
    blobBucketPred uid dev since stmt r = true ↔
      r.userId = uid ∧ r.lastStmt = stmt ∧ deviceFilter r.deviceId dev = true ∧
        since < r.historyId := by
  simp [blobBucketPred, and_assoc]

theorem blobTombPred_iff (uid : Int) (dev : Option String) (since : Int)
    (t : BlobTombstone) :
    blobTombPred uid dev since t = true ↔
      t.userId = uid ∧ deviceFilter t.deviceId dev = true ∧
        since < t.historyId := by
  simp [blobTombPred, and_assoc]

theorem mem_contactSync_inserted (st : ContactStore) (u : User) (since : Int)
    (r : ContactRow) :
    r ∈ (contactSync st u since).inserted ↔
      r ∈ st.contacts ∧ contactBucketPred u.id u.deviceId since 0 r = true :=
  mem_sortFilter _ _ _ _

theorem mem_contactSync_updated (st : ContactStore) (u : User) (since : Int)
    (r : ContactRow) :
    r ∈ (contactSync st u since).updated ↔
      r ∈ st.contacts ∧ contactBucketPred u.id u.deviceId since 1 r = true :=
  mem_sortFilter _ _ _ _

theorem mem_contactSync_trashed (st : ContactStore) (u : User) (since : Int)
    (r : ContactRow) :
    r ∈ (contactSync st u since).trashed ↔
      r ∈ st.contacts ∧ contactBucketPred u.id u.deviceId since 2 r = true :=
  mem_sortFilter _ _ _ _

theorem mem_blobSync_inserted (st : BlobStore) (u : User) (since : Int)
    (r : BlobRow) :
    r ∈ (blobSync st u since).inserted ↔
      r ∈ st.blobs ∧ blobBucketPred u.id u.deviceId since 0 r = true :=
  mem_sortFilter _ _ _ _

theorem mem_blobSync_updated (st : BlobStore) (u : User) (since : Int)
    (r : BlobRow) :
    r ∈ (blobSync st u since).updated ↔
      r ∈ st.blobs ∧ blobBucketPred u.id u.deviceId since 1 r = true :=
  mem_sortFilter _ _ _ _

theorem mem_blobSync_trashed (st : BlobStore) (u : User) (since : Int)
    (r : BlobRow) :
    r ∈ (blobSync st u since).trashed ↔
      r ∈ st.blobs ∧ blobBucketPred u.id u.deviceId since 2 r = true :=
  mem_sortFilter _ _ _ _

/-! Claim theorems. -/

/-- C4: for every user, List returns exactly the user's rows with
`lastStmt < 2` — every live record, never a hard-deleted or fully-trashed
one — ordered by creation time descending for contacts, while the blob List
query has no ORDER BY and keeps the table order (stated as: the result is a
sublist of the table); both results carry the user's current history
high-water-mark read from the same snapshot. -/
theorem claim_C4_list_engine (cst : ContactStore) (bst : BlobStore)
    (u : User) :
    (∀ r : ContactRow, r ∈ (contactList cst u).contacts ↔
        r ∈ cst.contacts ∧ r.userId = u.id ∧ r.lastStmt < 2) ∧
    (contactList cst u).contacts.Pairwise
      (fun a b => b.createdAt ≤ a.createdAt) ∧
    (contactList cst u).history = seqOf cst.seqs u.id ∧
    (∀ r : BlobRow, r ∈ (blobList bst u).blobs ↔
        r ∈ bst.blobs ∧ r.userId = u.id ∧ r.lastStmt < 2) ∧
    (blobList bst u).blobs.Sublist bst.blobs ∧
    (blobList bst u).history = seqOf bst.seqs u.id := by
  refine ⟨fun r => ?_, pairwise_sortByCreatedDesc _ _, rfl,
    fun r => ?_, List.filter_sublist _, rfl⟩
  · rw [show (contactList cst u).contacts =
        sortByCreatedDesc (fun r => r.createdAt)
          (cst.contacts.filter (contactLivePred u.id)) from rfl,
      mem_sortFilter, contactLivePred_iff]
  · rw [show (blobList bst u).blobs =
        bst.blobs.filter (blobLivePred u.id) from rfl,
      List.mem_filter, blobLivePred_iff]

/-- C1: for every user, caller device and sinceHistoryId, Sync partitions the
changed rows by their current lastStmt under the device-exclusion filter: the
inserted, updated and trashed buckets are exactly the user's rows with
lastStmt 0, 1 and 2 respectively, historyId above the cursor and the device
filter passing; the deleted bucket is exactly the user's tombstones above the
cursor under the same filter.  A row is in at most one of the three entity
buckets (so a record inserted then trashed in one window shows up only as
trashed), and, whenever no live row shares its key with a tombstone, the
deleted bucket is id-disjoint from the other three.  Stated for the Contact
and Blob repositories. -/
theorem claim_C1_sync_partition (cst : ContactStore) (bst : BlobStore)
    (u : User) (since : Int)
    (hc : ∀ r ∈ cst.contacts, ∀ t ∈ cst.tombstones,
      r.userId = t.userId → r.id ≠ t.id)
    (hb : ∀ r ∈ bst.blobs, ∀ t ∈ bst.tombstones,
      r.userId = t.userId → r.uri ≠ t.uri) :
    (∀ r : ContactRow, r ∈ (contactSync cst u since).inserted ↔
        r ∈ cst.contacts ∧ r.userId = u.id ∧ r.lastStmt = 0 ∧
          deviceFilter r.deviceId u.deviceId = true ∧ since < r.historyId) ∧
    (∀ r : ContactRow, r ∈ (contactSync cst u since).updated ↔
        r ∈ cst.contacts ∧ r.userId = u.id ∧ r.lastStmt = 1 ∧
          deviceFilter r.deviceId u.deviceId = true ∧ since < r.historyId) ∧
    (∀ r : ContactRow, r ∈ (contactSync cst u since).trashed ↔
        r ∈ cst.contacts ∧ r.userId = u.id ∧ r.lastStmt = 2 ∧
          deviceFilter r.deviceId u.deviceId = true ∧ since < r.historyId) ∧
    (∀ t : ContactTombstone, t ∈ (contactSync cst u since).deleted ↔
        t ∈ cst.tombstones ∧ t.userId = u.id ∧
          deviceFilter t.deviceId u.deviceId = true ∧ since < t.historyId) ∧
    (∀ r : ContactRow, r ∈ (contactSync cst u since).inserted →
        r ∉ (contactSync cst u since).updated ∧
        r ∉ (contactSync cst u since).trashed) ∧
    (∀ r : ContactRow, r ∈ (contactSync cst u since).updated →
        r ∉ (contactSync cst u since).trashed) ∧
    (∀ r : ContactRow, ∀ t ∈ (contactSync cst u since).deleted,
        (r ∈ (contactSync cst u since).inserted ∨
         r ∈ (contactSync cst u since).updated ∨
         r ∈ (contactSync cst u since).trashed) → r.id ≠ t.id) ∧
    (∀ r : BlobRow, r ∈ (blobSync bst u since).inserted ↔
        r ∈ bst.blobs ∧ r.userId = u.id ∧ r.lastStmt = 0 ∧
          deviceFilter r.deviceId u.deviceId = true ∧ since < r.historyId) ∧
    (∀ r : BlobRow, r ∈ (blobSync bst u since).updated ↔
        r ∈ bst.blobs ∧ r.userId = u.id ∧ r.lastStmt = 1 ∧
          deviceFilter r.deviceId u.deviceId = true ∧ since < r.historyId) ∧
    (∀ r : BlobRow, r ∈ (blobSync bst u since).trashed ↔
        r ∈ bst.blobs ∧ r.userId = u.id ∧ r.lastStmt = 2 ∧
          deviceFilter r.deviceId u.deviceId = true ∧ since < r.historyId) ∧
    (∀ t : BlobTombstone, t ∈ (blobSync bst u since).deleted ↔
        t ∈ bst.tombstones ∧ t.userId = u.id ∧
          deviceFilter t.deviceId u.deviceId = true ∧ since < t.historyId) ∧
    (∀ r : BlobRow, r ∈ (blobSync bst u since).inserted →
        r ∉ (blobSync bst u since).updated ∧
        r ∉ (blobSync bst u since).trashed) ∧
    (∀ r : BlobRow, r ∈ (blobSync bst u since).updated →
        r ∉ (blobSync bst u since).trashed) ∧
    (∀ r : BlobRow, ∀ t ∈ (blobSync bst u since).deleted,
        (r ∈ (blobSync bst u since).inserted ∨
         r ∈ (blobSync bst u since).updated ∨
         r ∈ (blobSync bst u since).trashed) → r.uri ≠ t.uri) := by
  have hci : ∀ r : ContactRow, r ∈ (contactSync cst u since).inserted ↔
      r ∈ cst.contacts ∧ r.userId = u.id ∧ r.lastStmt = 0 ∧
        deviceFilter r.deviceId u.deviceId = true ∧ since < r.historyId := by
    intro r
    rw [mem_contactSync_inserted, contactBucketPred_iff]
  have hcu : ∀ r : ContactRow, r ∈ (contactSync cst u since).updated ↔
      r ∈ cst.contacts ∧ r.userId = u.id ∧ r.lastStmt = 1 ∧
        deviceFilter r.deviceId u.deviceId = true ∧ since < r.historyId := by
    intro r
    rw [mem_contactSync_updated, contactBucketPred_iff]
  have hct : ∀ r : ContactRow, r ∈ (contactSync cst u since).trashed ↔
      r ∈ cst.contacts ∧ r.userId = u.id ∧ r.lastStmt = 2 ∧
        deviceFilter r.deviceId u.deviceId = true ∧ since < r.historyId := by
    intro r
    rw [mem_contactSync_trashed, contactBucketPred_iff]
  have hcd : ∀ t : ContactTombstone, t ∈ (contactSync cst u since).deleted ↔
      t ∈ cst.tombstones ∧ t.userId = u.id ∧
        deviceFilter t.deviceId u.deviceId = true ∧ since < t.historyId := by
    intro t
    rw [show (contactSync cst u since).deleted =
        cst.tombstones.filter (contactTombPred u.id u.deviceId since) from rfl,
      List.mem_filter, contactTombPred_iff]
  have hbi : ∀ r : BlobRow, r ∈ (blobSync bst u since).inserted ↔
      r ∈ bst.blobs ∧ r.userId = u.id ∧ r.lastStmt = 0 ∧
        deviceFilter r.deviceId u.deviceId = true ∧ since < r.historyId := by
    intro r
    rw [mem_blobSync_inserted, blobBucketPred_iff]
  have hbu : ∀ r : BlobRow, r ∈ (blobSync bst u since).updated ↔
      r ∈ bst.blobs ∧ r.userId = u.id ∧ r.lastStmt = 1 ∧
        deviceFilter r.deviceId u.deviceId = true ∧ since < r.historyId := by
    intro r
    rw [mem_blobSync_updated, blobBucketPred_iff]
  have hbt : ∀ r : BlobRow, r ∈ (blobSync bst u since).trashed ↔
      r ∈ bst.blobs ∧ r.userId = u.id ∧ r.lastStmt = 2 ∧
        deviceFilter r.deviceId u.deviceId = true ∧ since < r.historyId := by
    intro r
    rw [mem_blobSync_trashed, blobBucketPred_iff]
  have hbd : ∀ t : BlobTombstone, t ∈ (blobSync bst u since).deleted ↔
      t ∈ bst.tombstones ∧ t.userId = u.id ∧
        deviceFilter t.deviceId u.deviceId = true ∧ since < t.historyId := by
    intro t
    rw [show (blobSync bst u since).deleted =
        bst.tombstones.filter (blobTombPred u.id u.deviceId since) from rfl,
      List.mem_filter, blobTombPred_iff]
  refine ⟨hci, hcu, hct, hcd, ?_, ?_, ?_, hbi, hbu, hbt, hbd, ?_, ?_, ?_⟩
  · intro r hr
    have h0 := ((hci r).mp hr).2.2.1
    constructor
    · intro hr1
      have h1 := ((hcu r).mp hr1).2.2.1
      omega
    · intro hr2
      have h2 := ((hct r).mp hr2).2.2.1
      omega
  · intro r hr
    have h1 := ((hcu r).mp hr).2.2.1
    intro hr2
    have h2 := ((hct r).mp hr2).2.2.1
    omega
  · intro r t ht hmem
    have ht' := (hcd t).mp ht
    have hrmem : r ∈ cst.contacts ∧ r.userId = u.id := by
      rcases hmem with h | h | h
      · exact ⟨((hci r).mp h).1, ((hci r).mp h).2.1⟩
      · exact ⟨((hcu r).mp h).1, ((hcu r).mp h).2.1⟩
      · exact ⟨((hct r).mp h).1, ((hct r).mp h).2.1⟩
    exact hc r hrmem.1 t ht'.1 (by rw [hrmem.2, ht'.2.1])
  · intro r hr
    have h0 := ((hbi r).mp hr).2.2.1
    constructor
    · intro hr1
      have h1 := ((hbu r).mp hr1).2.2.1
      omega
    · intro hr2
      have h2 := ((hbt r).mp hr2).2.2.1
      omega
  · intro r hr
    have h1 := ((hbu r).mp hr).2.2.1
    intro hr2
    have h2 := ((hbt r).mp hr2).2.2.1
    omega
  · intro r t ht hmem
    have ht' := (hbd t).mp ht
    have hrmem : r ∈ bst.blobs ∧ r.userId = u.id := by
      rcases hmem with h | h | h
      · exact ⟨((hbi r).mp h).1, ((hbi r).mp h).2.1⟩
      · exact ⟨((hbu r).mp h).1, ((hbu r).mp h).2.1⟩
      · exact ⟨((hbt r).mp h).1, ((hbt r).mp h).2.1⟩
    exact hb r hrmem.1 t ht'.1 (by rw [hrmem.2, ht'.2.1])

/-! Concrete stores used to instantiate the claims. -/

def c1RowW : ContactRow :=
  { id := "c1", userId := 1, emailAddress := some "a", firstName := none,
    lastName := none, createdAt := 0, modifiedAt := none, timelineId := 0,
    historyId := 1, lastStmt := 0, deviceId := none }

def c1TombW : ContactTombstone :=
  { id := "c9", userId := 1, historyId := 2, deviceId := none }

def c1CStoreW : ContactStore :=
  { contacts := [c1RowW], tombstones := [c1TombW], seqs := [(1, 2)] }

def c1BRowW : BlobRow :=
  { uri := "b1", userId := 1, hash := "", name := "", snippet := "",
    path := "", size := 0, contentType := "", createdAt := 0,
    modifiedAt := none, timelineId := 0, historyId := 1, lastStmt := 0,
    deviceId := none }

def c1BTombW : BlobTombstone :=
  { uri := "b9", userId := 1, historyId := 2, deviceId := none }

def c1BStoreW : BlobStore :=
  { blobs := [c1BRowW], tombstones := [c1BTombW], seqs := [(1, 2)] }

def c1UserW : User := { id := 1, deviceId := some "d2" }

/-- Witness for C1: in a one-contact, one-tombstone store whose live row and
tombstone have different ids, the live created row lands in the inserted
bucket of a sync from cursor 0. -/
theorem claim_C1_witness :
    c1RowW ∈ (contactSync c1CStoreW c1UserW 0).inserted :=
  ((claim_C1_sync_partition c1CStoreW c1BStoreW c1UserW 0 (by decide)
    (by decide)).1 c1RowW).mpr (by decide)

def c2User1 : User := { id := 1, deviceId := some "d1" }

def c2User2 : User := { id := 1, deviceId := some "d2" }

def c2Store0 : ContactStore :=
  { contacts := [], tombstones := [], seqs := [(1, 0)] }

def c2Row : ContactRow :=
  { id := "c1", userId := 1, emailAddress := some "e", firstName := none,
    lastName := none, createdAt := 0, modifiedAt := none, timelineId := 0,
    historyId := 1, lastStmt := 0, deviceId := some "device:d1" }

def c2Store1 : ContactStore :=
  { contacts := [c2Row], tombstones := [], seqs := [(1, 1)] }

/-- C2, evaluated on the code at the failing input: user 1 creates a contact
through device d1, which stores the prefixed attribution `device:d1`; the
device-exclusion filter of the very same device's Sync compares the stored
value against the raw `d1`, they differ, and the record is returned to the
device that made it — contradicting the claimed (and specified) suppression.
The record is also returned to a second device d2, as the claim says. -/
theorem claim_C2_code_eval :
    contactCreate c2Store0 c2User1 "c1" 0 (some "e") none none =
      .ok (c2Store1, c2Row) ∧
    c2Row ∈ (contactSync c2Store1 c2User1 0).inserted ∧
    c2Row ∈ (contactSync c2Store1 c2User2 0).inserted :=
  ⟨rfl, by decide, by decide⟩

def c3Row : ContactRow :=
  { id := "c1", userId := 1, emailAddress := some "e", firstName := none,
    lastName := none, createdAt := 0, modifiedAt := none, timelineId := 0,
    historyId := 1, lastStmt := 0, deviceId := some "device:d1" }

def c3Store : ContactStore :=
  { contacts := [c3Row], tombstones := [], seqs := [(1, 1)] }

def c3NullUser : User := { id := 1, deviceId := none }

def c3OtherUser : User := { id := 1, deviceId := some "d2" }

/-- Counterexample to C3 as stated: a store holding a single created (never
updated or trashed) record with device attribution, synced by a caller whose
device id is null.  Under the SQL three-valued device filter the attributed
row is excluded from the inserted bucket, so Sync(user, 0) does not equal
List(user). -/
theorem claim_C3_counterexample :
    (∀ r ∈ c3Store.contacts, r.lastStmt = 0 ∧
        r.deviceId = getPrefixedDeviceId (some "d1")) ∧
    (contactSync c3Store c3NullUser 0).inserted ≠
      (contactList c3Store c3NullUser).contacts := by decide

/-- C3 (amended): for every user all of whose records are in the
freshly-created state — lastStmt 0, a positive historyId and a device
attribution that passes the caller's device filter (in particular, the caller
device id is non-null and differs from every stored, prefixed attribution) —
the inserted bucket of Sync(user, 0) equals the record list of List(user), and
the high-water-marks of the two calls agree. -/
theorem claim_C3_cold_start (st : ContactStore) (u : User)
    (h : ∀ r ∈ st.contacts, r.userId = u.id →
      r.lastStmt = 0 ∧ 0 < r.historyId ∧
        deviceFilter r.deviceId u.deviceId = true) :
    (contactSync st u 0).inserted = (contactList st u).contacts ∧
    (contactSync st u 0).history = (contactList st u).history := by
  constructor
  · show sortByCreatedDesc (fun r => r.createdAt)
        (st.contacts.filter (contactBucketPred u.id u.deviceId 0 0)) =
      sortByCreatedDesc (fun r => r.createdAt)
        (st.contacts.filter (contactLivePred u.id))
    apply congrArg
    apply List.filter_congr
    intro r hr
    by_cases hu : r.userId = u.id
    · rcases h r hr hu with ⟨h0, hh, hd⟩
      have hb : contactBucketPred u.id u.deviceId 0 0 r = true :=
        (contactBucketPred_iff u.id u.deviceId 0 0 r).mpr ⟨hu, h0, hd, hh⟩
      have hl : contactLivePred u.id r = true :=
        (contactLivePred_iff u.id r).mpr ⟨hu, by omega⟩
      rw [hb, hl]
    · have hb : contactBucketPred u.id u.deviceId 0 0 r = false :=
        Bool.eq_false_iff.mpr (fun hcontra =>
          hu ((contactBucketPred_iff u.id u.deviceId 0 0 r).mp hcontra).1)
      have hl : contactLivePred u.id r = false :=
        Bool.eq_false_iff.mpr (fun hcontra =>
          hu ((contactLivePred_iff u.id r).mp hcontra).1)
      rw [hb, hl]
  · rfl

/-- Witness for the amended C3: with a non-null caller device distinct from
the stored attribution, the cold-start equality holds on the concrete
store. -/
theorem claim_C3_witness :
    (contactSync c3Store c3OtherUser 0).inserted =
      (contactList c3Store c3OtherUser).contacts :=
  (claim_C3_cold_start c3Store c3OtherUser (by decide)).1

/-! Lemmas for the blob Delete transaction. -/

theorem blobDeleteFold_fst (uid : Int) (uris : List String) (l : List BlobRow)
    (s : Int) :
    (blobDeleteFold uid uris l s).1 =
      l.filter (fun r => !(blobUriListPred uid uris r)) := by
  induction l generalizing s with
  | nil => rfl
  | cons r rest ih =>
    by_cases hp : blobUriListPred uid uris r = true <;>
      simp [blobDeleteFold, List.filter_cons, hp, ih]

theorem blobStamp_mem (ts : List BlobTombstone) (u : User)
    (uris : List String) (t : BlobTombstone)
    (ht : t ∈ blobStampTombstones ts u uris) :
    t.userId = u.id → t.uri ∈ uris → t.deviceId = u.deviceId := by
  rcases List.mem_map.mp ht with ⟨t0, ht0, heq⟩
  by_cases hc : (decide (t0.userId = u.id) && decide (t0.uri ∈ uris)) = true
  · rw [if_pos hc] at heq
    intro _ _
    rw [← heq]
  · rw [if_neg hc] at heq
    subst heq
    intro hu hm
    exact absurd (by simp [hu, hm]) hc

/-- The committed result of the blob Delete transaction: rows removed,
trigger tombstones added, matching tombstones stamped with the caller's raw
device id. -/
def blobFullDelete (st : BlobStore) (u : User) (uris : List String) :
    BlobStore :=
  let st1 := blobApplyDelete st u uris
  { st1 with tombstones := blobStampTombstones st1.tombstones u uris }

/-- C5: for every user and non-empty uri set, the blob Delete runs the row
removal and the tombstone device-stamp in one transaction: when every
statement and the commit succeed the visible store is the fully-applied one
(matching rows gone, every matching tombstone stamped with the caller's
device id), and when any of them fails the visible store is unchanged and a
storage error is reported — never the intermediate state. -/
theorem claim_C5_blob_delete_atomic (st : BlobStore) (u : User)
    (uris : List String) (delOk updOk commitOk : Bool) (hne : uris ≠ []) :
    (delOk = true ∧ updOk = true ∧ commitOk = true ∧
      blobDelete delOk updOk commitOk st u uris =
        (blobFullDelete st u uris, none) ∧
      (∀ r : BlobRow, r ∈ (blobFullDelete st u uris).blobs ↔
          r ∈ st.blobs ∧ ¬(r.userId = u.id ∧ r.uri ∈ uris)) ∧
      (∀ t ∈ (blobFullDelete st u uris).tombstones,
          t.userId = u.id → t.uri ∈ uris → t.deviceId = u.deviceId)) ∨
    ((delOk = false ∨ updOk = false ∨ commitOk = false) ∧
      blobDelete delOk updOk commitOk st u uris = (st, some .storage)) := by
  have hne' : uris.isEmpty = false := by
    cases uris with
    | nil => exact absurd rfl hne
    | cons a l => rfl
  have hmem : ∀ r : BlobRow, r ∈ (blobFullDelete st u uris).blobs ↔
      r ∈ st.blobs ∧ ¬(r.userId = u.id ∧ r.uri ∈ uris) := by
    intro r
    show r ∈ (blobDeleteFold u.id uris st.blobs (seqOf st.seqs u.id)).1 ↔ _
    rw [blobDeleteFold_fst, List.mem_filter]
    simp only [Bool.not_eq_true', blobUriListPred, Bool.and_eq_false_iff,
      decide_eq_false_iff_not]
    tauto
  have hstamp : ∀ t ∈ (blobFullDelete st u uris).tombstones,
      t.userId = u.id → t.uri ∈ uris → t.deviceId = u.deviceId := by
    intro t ht
    exact blobStamp_mem _ u uris t ht
  cases delOk with
  | false =>
    refine Or.inr ⟨Or.inl rfl, ?_⟩
    simp [blobDelete, hne']
  | true =>
    cases updOk with
    | false =>
      refine Or.inr ⟨Or.inr (Or.inl rfl), ?_⟩
      simp [blobDelete, hne']
    | true =>
      cases commitOk with
      | false =>
        refine Or.inr ⟨Or.inr (Or.inr rfl), ?_⟩
        simp [blobDelete, hne']
      | true =>
        refine Or.inl ⟨rfl, rfl, rfl, ?_, hmem, hstamp⟩
        simp [blobDelete, hne', blobFullDelete]

/-! Lemmas and theorem for C6 (Update not-found and duplicate semantics). -/

theorem contactUpdatePred_iff (uid : Int) (cid : String) (r : ContactRow) :
    contactUpdatePred uid cid r = true ↔
      r.userId = uid ∧ r.id = cid ∧ r.lastStmt ≠ 2 := by
  simp [contactUpdatePred, and_assoc]

theorem draftUpdatePred_iff (uid : Int) (did : String) (r : DraftRow) :
    draftUpdatePred uid did r = true ↔
      r.userId = uid ∧ r.id = did ∧ r.lastStmt ≠ 2 := by
  simp [draftUpdatePred, and_assoc]

theorem contactDupPred_iff (email first last : Option String)
    (r : ContactRow) :
    contactDupPred email first last r = true ↔
      r.emailAddress = email ∧ r.firstName = first ∧ r.lastName = last := by
  simp [contactDupPred, and_assoc]

/-- The uniqueness-violation condition of the contact UPDATE: some row not
selected by the UPDATE already carries the new identity triple. -/
theorem contactUpdateDup_iff (cst : ContactStore) (u : User) (cid : String)
    (email first last : Option String) :
    (cst.contacts.any (fun x =>
        !(contactUpdatePred u.id cid x) &&
          contactDupPred email first last x) = true) ↔
      ∃ x ∈ cst.contacts,
        ¬(x.userId = u.id ∧ x.id = cid ∧ x.lastStmt ≠ 2) ∧
        x.emailAddress = email ∧ x.firstName = first ∧
        x.lastName = last := by
  rw [List.any_eq_true]
  constructor
  · rintro ⟨x, hx, hq⟩
    rw [Bool.and_eq_true, Bool.not_eq_true'] at hq
    refine ⟨x, hx, ?_,
      (contactDupPred_iff email first last x).mp hq.2⟩
    intro hc
    have hp := hq.1
    rw [(contactUpdatePred_iff u.id cid x).mpr hc] at hp
    simp at hp
  · rintro ⟨x, hx, hnp, h1, h2, h3⟩
    refine ⟨x, hx, ?_⟩
    rw [Bool.and_eq_true, Bool.not_eq_true']
    refine ⟨?_, (contactDupPred_iff email first last x).mpr ⟨h1, h2, h3⟩⟩
    rw [Bool.eq_false_iff]
    intro hcontra
    exact hnp ((contactUpdatePred_iff u.id cid x).mp hcontra)

/-- C6 (amended): Update answers NotFound exactly when no row of the caller
with the given key and `lastStmt <> 2` exists (absent or already fully
trashed).  When a matching row exists, the contact Update fails with the
Duplicate error exactly when a row not selected by the UPDATE already carries
the new email+firstname+lastname identity, and succeeds otherwise; on success
the returned record carries the new domain fields, the bumped historyId, the
prefixed device id, the new modifiedAt and lives in the resulting store.  The
draft Update has no uniqueness constraint and succeeds whenever a matching
row exists. -/
theorem claim_C6_update_notfound (cst : ContactStore) (dst : DraftStore)
    (u : User) (cid did : String) (now : Int)
    (email first last payload : Option String) :
    (contactUpdate cst u cid now email first last = .error .notFound ↔
      ¬∃ r ∈ cst.contacts, r.userId = u.id ∧ r.id = cid ∧ r.lastStmt ≠ 2) ∧
    (contactUpdate cst u cid now email first last = .error .duplicate ↔
      (∃ r ∈ cst.contacts, r.userId = u.id ∧ r.id = cid ∧ r.lastStmt ≠ 2) ∧
        ∃ x ∈ cst.contacts,
          ¬(x.userId = u.id ∧ x.id = cid ∧ x.lastStmt ≠ 2) ∧
          x.emailAddress = email ∧ x.firstName = first ∧
          x.lastName = last) ∧
    ((∃ r ∈ cst.contacts, r.userId = u.id ∧ r.id = cid ∧ r.lastStmt ≠ 2) →
      (¬∃ x ∈ cst.contacts,
        ¬(x.userId = u.id ∧ x.id = cid ∧ x.lastStmt ≠ 2) ∧
        x.emailAddress = email ∧ x.firstName = first ∧
        x.lastName = last) →
      ∃ stR rR, contactUpdate cst u cid now email first last =
        .ok (stR, rR)) ∧
    (∀ stR rR, contactUpdate cst u cid now email first last =
        .ok (stR, rR) →
      rR.emailAddress = email ∧ rR.firstName = first ∧ rR.lastName = last ∧
        rR.historyId = seqOf cst.seqs u.id + 1 ∧
        rR.deviceId = getPrefixedDeviceId u.deviceId ∧
        rR.modifiedAt = some now ∧ rR.lastStmt = 1 ∧ rR ∈ stR.contacts) ∧
    (draftUpdate dst u did now payload = .error .notFound ↔
      ¬∃ r ∈ dst.drafts, r.userId = u.id ∧ r.id = did ∧ r.lastStmt ≠ 2) ∧
    ((∃ r ∈ dst.drafts, r.userId = u.id ∧ r.id = did ∧ r.lastStmt ≠ 2) →
      ∃ stR rR, draftUpdate dst u did now payload = .ok (stR, rR)) ∧
    (∀ stR rR, draftUpdate dst u did now payload = .ok (stR, rR) →
      rR.payload = payload ∧ rR.historyId = seqOf dst.seqs u.id + 1 ∧
        rR.deviceId = getPrefixedDeviceId u.deviceId ∧
        rR.modifiedAt = some now ∧ rR.lastStmt = 1 ∧ rR ∈ stR.drafts) := by
  refine ⟨?_, ?_, ?_, ?_, ?_, ?_, ?_⟩
  · cases hf : cst.contacts.find? (contactUpdatePred u.id cid) with
    | none =>
      apply iff_of_true
      · simp [contactUpdate, hf]
      · rintro ⟨r, hr, h1, h2, h3⟩
        exact absurd ((contactUpdatePred_iff u.id cid r).mpr ⟨h1, h2, h3⟩)
          (by simpa using List.find?_eq_none.mp hf r hr)
    | some r =>
      apply iff_of_false
      · intro hcontra
        rw [contactUpdate] at hcontra
        simp only [hf] at hcontra
        split at hcontra <;> simp at hcontra
      · intro hno
        exact hno ⟨r, List.mem_of_find?_eq_some hf,
          (contactUpdatePred_iff u.id cid r).mp (List.find?_some hf)⟩
  · cases hf : cst.contacts.find? (contactUpdatePred u.id cid) with
    | none =>
      apply iff_of_false
      · simp [contactUpdate, hf]
      · rintro ⟨⟨r, hr, h1, h2, h3⟩, _⟩
        exact absurd ((contactUpdatePred_iff u.id cid r).mpr ⟨h1, h2, h3⟩)
          (by simpa using List.find?_eq_none.mp hf r hr)
    | some r =>
      by_cases hdup : (cst.contacts.any (fun x =>
          !(contactUpdatePred u.id cid x) &&
            contactDupPred email first last x)) = true
      · apply iff_of_true
        · rw [contactUpdate]
          simp only [hf]
          rw [if_pos hdup]
        · exact ⟨⟨r, List.mem_of_find?_eq_some hf,
            (contactUpdatePred_iff u.id cid r).mp (List.find?_some hf)⟩,
            (contactUpdateDup_iff cst u cid email first last).mp hdup⟩
      · apply iff_of_false
        · intro hcontra
          rw [contactUpdate] at hcontra
          simp only [hf] at hcontra
          rw [if_neg hdup] at hcontra
          simp at hcontra
        · rintro ⟨_, hdupex⟩
          exact hdup
            ((contactUpdateDup_iff cst u cid email first last).mpr hdupex)
  · intro hex hnodup
    cases hf : cst.contacts.find? (contactUpdatePred u.id cid) with
    | none =>
      rcases hex with ⟨r, hr, h1, h2, h3⟩
      exact absurd ((contactUpdatePred_iff u.id cid r).mpr ⟨h1, h2, h3⟩)
        (by simpa using List.find?_eq_none.mp hf r hr)
    | some r =>
      have hdup : ¬(cst.contacts.any (fun x =>
          !(contactUpdatePred u.id cid x) &&
            contactDupPred email first last x)) = true :=
        fun h => hnodup
          ((contactUpdateDup_iff cst u cid email first last).mp h)
      exact ⟨_, _, by
        rw [contactUpdate]; simp only [hf]; rw [if_neg hdup]⟩
  · intro stR rR hok
    cases hf : cst.contacts.find? (contactUpdatePred u.id cid) with
    | none => simp [contactUpdate, hf] at hok
    | some r =>
      rw [contactUpdate] at hok
      simp only [hf] at hok
      by_cases hdup : (cst.contacts.any (fun x =>
          !(contactUpdatePred u.id cid x) &&
            contactDupPred email first last x)) = true
      · rw [if_pos hdup] at hok
        simp at hok
      · rw [if_neg hdup] at hok
        rw [Except.ok.injEq, Prod.mk.injEq] at hok
        rcases hok with ⟨hst, hr⟩
        subst hst
        subst hr
        refine ⟨rfl, rfl, rfl, rfl, rfl, rfl, rfl, ?_⟩
        have hpred : contactUpdatePred u.id cid r = true := List.find?_some hf
        have hmem : r ∈ cst.contacts := List.mem_of_find?_eq_some hf
        have hm2 := List.mem_map_of_mem
          (fun x => if contactUpdatePred u.id cid x then
            { x with emailAddress := email, firstName := first,
                     lastName := last,
                     deviceId := getPrefixedDeviceId u.deviceId,
                     lastStmt := 1,
                     historyId := seqOf cst.seqs u.id + 1,
                     modifiedAt := some now } else x) hmem
        simpa [hpred] using hm2
  · cases hf : dst.drafts.find? (draftUpdatePred u.id did) with
    | none =>
      apply iff_of_true
      · simp [draftUpdate, hf]
      · rintro ⟨r, hr, h1, h2, h3⟩
        exact absurd ((draftUpdatePred_iff u.id did r).mpr ⟨h1, h2, h3⟩)
          (by simpa using List.find?_eq_none.mp hf r hr)
    | some r =>
      apply iff_of_false
      · simp [draftUpdate, hf]
      · intro hno
        exact hno ⟨r, List.mem_of_find?_eq_some hf,
          (draftUpdatePred_iff u.id did r).mp (List.find?_some hf)⟩
  · intro hex
    cases hf : dst.drafts.find? (draftUpdatePred u.id did) with
    | none =>
      rcases hex with ⟨r, hr, h1, h2, h3⟩
      exact absurd ((draftUpdatePred_iff u.id did r).mpr ⟨h1, h2, h3⟩)
        (by simpa using List.find?_eq_none.mp hf r hr)
    | some r =>
      exact ⟨_, _, by rw [draftUpdate]; simp only [hf]; rfl⟩
  · intro stR rR hok
    cases hf : dst.drafts.find? (draftUpdatePred u.id did) with
    | none => simp [draftUpdate, hf] at hok
    | some r =>
      rw [draftUpdate] at hok
      simp only [hf] at hok
      rw [Except.ok.injEq, Prod.mk.injEq] at hok
      rcases hok with ⟨hst, hr⟩
      subst hst
      subst hr
      refine ⟨rfl, rfl, rfl, rfl, rfl, ?_⟩
      have hpred : draftUpdatePred u.id did r = true := List.find?_some hf
      have hmem : r ∈ dst.drafts := List.mem_of_find?_eq_some hf
      have hm2 := List.mem_map_of_mem
        (fun x => if draftUpdatePred u.id did x then
          { x with payload := payload,
                   deviceId := getPrefixedDeviceId u.deviceId, lastStmt := 1,
                   historyId := seqOf dst.seqs u.id + 1,
                   modifiedAt := some now } else x) hmem
      simpa [hpred] using hm2

/-! Lemmas and theorems for the bulk operations (C7, C9, C10). -/

theorem filter_filter_frame {α : Type} (l : List α) (p q : α → Bool)
    (hpq : ∀ y, p y = true → q y = false) :
    (l.filter (fun r => !(p r))).filter q = l.filter q := by
  induction l with
  | nil => rfl
  | cons a t ih =>
    by_cases hp : p a = true
    · have hq := hpq a hp
      simp [List.filter_cons, hp, hq, ih]
    · by_cases hq : q a = true <;> simp [List.filter_cons, hp, hq, ih]

theorem contactIdPred_false (uid : Int) (ids : List String) (r : ContactRow)
    (h : ¬(r.userId = uid ∧ r.id ∈ ids)) :
    contactIdPred uid ids r = false := by
  rw [contactIdPred]
  simp only [Bool.and_eq_false_iff, decide_eq_false_iff_not]
  tauto

/-- C7: the bulk Trash, Untrash and Delete of the contact repository succeed
without touching the store on an empty id set, and are best-effort on
arbitrary id sets: when none of the listed ids exists for the caller the
table and every per-user history value are unchanged, rows outside the listed
set survive untouched, and Trash/Untrash never add or remove rows — a missing
id is never an error. -/
theorem claim_C7_bulk_best_effort (st : ContactStore) (u : User)
    (ids : List String) :
    contactTrash st u [] = st ∧
    contactUntrash st u [] = st ∧
    contactDelete st u [] = st ∧
    ((∀ r ∈ st.contacts, ¬(r.userId = u.id ∧ r.id ∈ ids)) →
      (contactTrash st u ids).contacts = st.contacts ∧
      (contactUntrash st u ids).contacts = st.contacts ∧
      contactDelete st u ids = st ∧
      (∀ x, seqOf (contactTrash st u ids).seqs x = seqOf st.seqs x) ∧
      (∀ x, seqOf (contactUntrash st u ids).seqs x = seqOf st.seqs x)) ∧
    (∀ r ∈ st.contacts, ¬(r.userId = u.id ∧ r.id ∈ ids) →
      r ∈ (contactTrash st u ids).contacts ∧
      r ∈ (contactUntrash st u ids).contacts ∧
      r ∈ (contactDelete st u ids).contacts) ∧
    (contactTrash st u ids).contacts.length = st.contacts.length ∧
    (contactUntrash st u ids).contacts.length = st.contacts.length := by
  by_cases hids : ids.isEmpty = true
  · have hnil : ids = [] := List.isEmpty_iff.mp hids
    subst hnil
    refine ⟨rfl, rfl, rfl, fun _ => ⟨rfl, rfl, rfl, fun _ => rfl,
      fun _ => rfl⟩, fun r hr _ => ⟨hr, hr, hr⟩, rfl, rfl⟩
  · have htr : (contactTrash st u ids).contacts =
        (stampFold (contactIdPred u.id ids)
          (trashStamp (getPrefixedDeviceId u.deviceId))
          st.contacts (seqOf st.seqs u.id)).1 := by
      simp [contactTrash, hids]
    have hun : (contactUntrash st u ids).contacts =
        (stampFold (contactIdPred u.id ids)
          (untrashStamp (getPrefixedDeviceId u.deviceId))
          st.contacts (seqOf st.seqs u.id)).1 := by
      simp [contactUntrash, hids]
    have htrs : (contactTrash st u ids).seqs =
        setSeq st.seqs u.id
          (stampFold (contactIdPred u.id ids)
            (trashStamp (getPrefixedDeviceId u.deviceId))
            st.contacts (seqOf st.seqs u.id)).2 := by
      simp [contactTrash, hids]
    have huns : (contactUntrash st u ids).seqs =
        setSeq st.seqs u.id
          (stampFold (contactIdPred u.id ids)
            (untrashStamp (getPrefixedDeviceId u.deviceId))
            st.contacts (seqOf st.seqs u.id)).2 := by
      simp [contactUntrash, hids]
    have hdel : (contactDelete st u ids).contacts =
        st.contacts.filter (fun r => !(contactIdPred u.id ids r)) := by
      simp [contactDelete, hids]
    refine ⟨rfl, rfl, rfl, ?_, ?_, ?_, ?_⟩
    · intro hno
      have hfalse : ∀ r ∈ st.contacts, contactIdPred u.id ids r = false :=
        fun r hr => contactIdPred_false u.id ids r (hno r hr)
      have hfold := stampFold_nomatch (contactIdPred u.id ids)
        (trashStamp (getPrefixedDeviceId u.deviceId))
        st.contacts (seqOf st.seqs u.id) hfalse
      have hfold' := stampFold_nomatch (contactIdPred u.id ids)
        (untrashStamp (getPrefixedDeviceId u.deviceId))
        st.contacts (seqOf st.seqs u.id) hfalse
      have hfilter : st.contacts.filter
          (fun r => !(contactIdPred u.id ids r)) = st.contacts :=
        List.filter_eq_self.mpr
          (fun r hr => by rw [hfalse r hr]; rfl)
      refine ⟨by rw [htr, hfold], by rw [hun, hfold'], ?_, ?_, ?_⟩
      · have : (contactDelete st u ids).contacts = st.contacts := by
          rw [hdel, hfilter]
        calc contactDelete st u ids
            = { contactDelete st u ids with contacts := st.contacts } := by
              rw [← this]
          _ = st := by simp [contactDelete, hids]
      · intro x
        rw [htrs, hfold]
        exact seqOf_setSeq_self st.seqs u.id x
      · intro x
        rw [huns, hfold']
        exact seqOf_setSeq_self st.seqs u.id x
    · intro r hr hno
      have hf : contactIdPred u.id ids r = false :=
        contactIdPred_false u.id ids r hno
      refine ⟨?_, ?_, ?_⟩
      · rw [htr]
        exact stampFold_mem_src _ _ _ _ r hr hf
      · rw [hun]
        exact stampFold_mem_src _ _ _ _ r hr hf
      · rw [hdel]
        exact List.mem_filter.mpr ⟨hr, by rw [hf]; rfl⟩
    · rw [htr]
      exact stampFold_length _ _ _ _
    · rw [hun]
      exact stampFold_length _ _ _ _

theorem blobUriPred_iff (uid : Int) (uri : String) (r : BlobRow) :
    blobUriPred uid uri r = true ↔
      r.userId = uid ∧ r.uri = uri ∧ r.lastStmt < 2 := by
  simp [blobUriPred, and_assoc]

/-- C8: GetBlobByUri answers the zero-value record with no error exactly when
the user has no row with that uri and `lastStmt < 2` — so a trashed blob is
treated as not found and yields the zero record rather than an error — and it
never reports an error.  The store hypothesis is the schema invariant that
every persisted row has a positive historyId. -/
theorem claim_C8_get_blob_not_found (st : BlobStore) (u : User) (uri : String)
    (hwf : ∀ r ∈ st.blobs, 1 ≤ r.historyId) :
    (blobGetByUri st u uri = .ok zeroBlob ↔
      ¬∃ r ∈ st.blobs, r.userId = u.id ∧ r.uri = uri ∧ r.lastStmt < 2) ∧
    (∃ b, blobGetByUri st u uri = .ok b) := by
  cases hf : st.blobs.find? (blobUriPred u.id uri) with
  | none =>
    have hres : blobGetByUri st u uri = .ok zeroBlob := by
      simp [blobGetByUri, hf]
    refine ⟨iff_of_true hres ?_, ⟨zeroBlob, hres⟩⟩
    rintro ⟨r, hr, h1, h2, h3⟩
    exact absurd ((blobUriPred_iff u.id uri r).mpr ⟨h1, h2, h3⟩)
      (by simpa using List.find?_eq_none.mp hf r hr)
  | some r =>
    have hres : blobGetByUri st u uri = .ok r := by
      simp [blobGetByUri, hf]
    have hmem := List.mem_of_find?_eq_some hf
    have hpred := (blobUriPred_iff u.id uri r).mp (List.find?_some hf)
    refine ⟨iff_of_false ?_ ?_, ⟨r, hres⟩⟩
    · rw [hres]
      intro hcontra
      have hrz : r = zeroBlob := by
        injection hcontra
      have h1 := hwf r hmem
      rw [hrz] at h1
      simp [zeroBlob] at h1
    · intro hno
      exact hno ⟨r, hmem, hpred⟩

theorem draftIdPred_false (uid : Int) (ids : List String) (r : DraftRow)
    (h : ¬(r.userId = uid ∧ r.id ∈ ids)) :
    draftIdPred uid ids r = false := by
  rw [draftIdPred]
  simp only [Bool.and_eq_false_iff, decide_eq_false_iff_not]
  tauto

/-- C9: the bulk mutations only touch the caller's rows: for any other user
id v, the v-owned rows — with all their fields — are the same before and
after Trash, Untrash and Delete of the contact repository and Untrash of the
draft repository. -/
theorem claim_C9_user_isolation (cst : ContactStore) (dst : DraftStore)
    (u : User) (v : Int) (ids : List String) (hv : v ≠ u.id) :
    (contactTrash cst u ids).contacts.filter
        (fun r => decide (r.userId = v)) =
      cst.contacts.filter (fun r => decide (r.userId = v)) ∧
    (contactUntrash cst u ids).contacts.filter
        (fun r => decide (r.userId = v)) =
      cst.contacts.filter (fun r => decide (r.userId = v)) ∧
    (contactDelete cst u ids).contacts.filter
        (fun r => decide (r.userId = v)) =
      cst.contacts.filter (fun r => decide (r.userId = v)) ∧
    (draftUntrash dst u ids).drafts.filter
        (fun r => decide (r.userId = v)) =
      dst.drafts.filter (fun r => decide (r.userId = v)) := by
  have hcq : ∀ y : ContactRow, contactIdPred u.id ids y = true →
      decide (y.userId = v) = false := by
    intro y hy
    have hyu : y.userId = u.id := by
      rw [contactIdPred] at hy
      simp only [Bool.and_eq_true, decide_eq_true_eq] at hy
      exact hy.1
    rw [decide_eq_false_iff_not]
    intro hyv
    exact hv (by rw [← hyv, hyu])
  have hdq : ∀ y : DraftRow, draftIdPred u.id ids y = true →
      decide (y.userId = v) = false := by
    intro y hy
    have hyu : y.userId = u.id := by
      rw [draftIdPred] at hy
      simp only [Bool.and_eq_true, decide_eq_true_eq] at hy
      exact hy.1
    rw [decide_eq_false_iff_not]
    intro hyv
    exact hv (by rw [← hyv, hyu])
  by_cases hids : ids.isEmpty = true
  · have hnil : ids = [] := List.isEmpty_iff.mp hids
    subst hnil
    exact ⟨rfl, rfl, rfl, rfl⟩
  · refine ⟨?_, ?_, ?_, ?_⟩
    · have htr : (contactTrash cst u ids).contacts =
          (stampFold (contactIdPred u.id ids)
            (trashStamp (getPrefixedDeviceId u.deviceId))
            cst.contacts (seqOf cst.seqs u.id)).1 := by
        simp [contactTrash, hids]
      rw [htr]
      exact stampFold_filter_frame _ _ _ _ _ hcq (fun y h => rfl)
    · have hun : (contactUntrash cst u ids).contacts =
          (stampFold (contactIdPred u.id ids)
            (untrashStamp (getPrefixedDeviceId u.deviceId))
            cst.contacts (seqOf cst.seqs u.id)).1 := by
        simp [contactUntrash, hids]
      rw [hun]
      exact stampFold_filter_frame _ _ _ _ _ hcq (fun y h => rfl)
    · have hdel : (contactDelete cst u ids).contacts =
          cst.contacts.filter (fun r => !(contactIdPred u.id ids r)) := by
        simp [contactDelete, hids]
      rw [hdel]
      exact filter_filter_frame _ _ _ hcq
    · have hun : (draftUntrash dst u ids).drafts =
          (stampFold (draftIdPred u.id ids)
            (draftUntrashStamp (getPrefixedDeviceId u.deviceId))
            dst.drafts (seqOf dst.seqs u.id)).1 := by
        simp [draftUntrash, hids]
      rw [hun]
      exact stampFold_filter_frame _ _ _ _ _ hdq (fun y h => rfl)

/-- C10: Untrash resets lastStmt to 0 and re-stamps the device attribution on
every listed row of the caller with no precondition on the previous state: a
listed row — in particular a never-trashed, updated one — reappears in the
table with lastStmt 0, the untrashing device's prefixed id and a freshly
bumped historyId, after which any sync whose device filter passes classifies
it as inserted and never as updated.  Stated for the Contact and Draft
repositories. -/
theorem claim_C10_untrash_unconditional (cst : ContactStore)
    (dst : DraftStore) (u : User) (ids : List String) (r : ContactRow)
    (hr : r ∈ cst.contacts) (hu : r.userId = u.id) (hid : r.id ∈ ids) :
    (∃ h : Int, seqOf cst.seqs u.id < h ∧
      untrashStamp (getPrefixedDeviceId u.deviceId) r h ∈
        (contactUntrash cst u ids).contacts ∧
      (untrashStamp (getPrefixedDeviceId u.deviceId) r h).lastStmt = 0 ∧
      (untrashStamp (getPrefixedDeviceId u.deviceId) r h).deviceId =
        getPrefixedDeviceId u.deviceId ∧
      (∀ c : User, c.id = u.id →
        deviceFilter (getPrefixedDeviceId u.deviceId) c.deviceId = true →
        untrashStamp (getPrefixedDeviceId u.deviceId) r h ∈
          (contactSync (contactUntrash cst u ids) c
            (seqOf cst.seqs u.id)).inserted ∧
        untrashStamp (getPrefixedDeviceId u.deviceId) r h ∉
          (contactSync (contactUntrash cst u ids) c
            (seqOf cst.seqs u.id)).updated)) ∧
    (∀ d ∈ dst.drafts, d.userId = u.id → d.id ∈ ids →
      ∃ h : Int, seqOf dst.seqs u.id < h ∧
        draftUntrashStamp (getPrefixedDeviceId u.deviceId) d h ∈
          (draftUntrash dst u ids).drafts ∧
        (draftUntrashStamp (getPrefixedDeviceId u.deviceId) d h).lastStmt
          = 0 ∧
        (draftUntrashStamp (getPrefixedDeviceId u.deviceId) d h).deviceId =
          getPrefixedDeviceId u.deviceId) := by
  have hids : ids.isEmpty = false := by
    cases ids with
    | nil => cases hid
    | cons a l => rfl
  constructor
  · have hun : (contactUntrash cst u ids).contacts =
        (stampFold (contactIdPred u.id ids)
          (untrashStamp (getPrefixedDeviceId u.deviceId))
          cst.contacts (seqOf cst.seqs u.id)).1 := by
      simp [contactUntrash, hids]
    have hpred : contactIdPred u.id ids r = true := by
      rw [contactIdPred]
      simp [hu, hid]
    rcases stampFold_mem_hit (contactIdPred u.id ids)
      (untrashStamp (getPrefixedDeviceId u.deviceId))
      cst.contacts (seqOf cst.seqs u.id) r hr hpred with ⟨h, hlt, hmem⟩
    refine ⟨h, hlt, by rw [hun]; exact hmem, rfl, rfl, ?_⟩
    intro c hc hdev
    constructor
    · apply (mem_contactSync_inserted _ c _ _).mpr
      refine ⟨by rw [hun]; exact hmem, ?_⟩
      apply (contactBucketPred_iff c.id c.deviceId _ 0 _).mpr
      exact ⟨by rw [hc]; exact hu, rfl, hdev, hlt⟩
    · intro hbad
      have := ((contactBucketPred_iff c.id c.deviceId _ 1 _).mp
        ((mem_contactSync_updated _ c _ _).mp hbad).2).2.1
      simp [untrashStamp] at this
  · intro d hd hdu hdid
    have hun : (draftUntrash dst u ids).drafts =
        (stampFold (draftIdPred u.id ids)
          (draftUntrashStamp (getPrefixedDeviceId u.deviceId))
          dst.drafts (seqOf dst.seqs u.id)).1 := by
      simp [draftUntrash, hids]
    have hpred : draftIdPred u.id ids d = true := by
      rw [draftIdPred]
      simp [hdu, hdid]
    rcases stampFold_mem_hit (draftIdPred u.id ids)
      (draftUntrashStamp (getPrefixedDeviceId u.deviceId))
      dst.drafts (seqOf dst.seqs u.id) d hd hpred with ⟨h, hlt, hmem⟩
    exact ⟨h, hlt, by rw [hun]; exact hmem, rfl, rfl⟩

/-! Concrete witnesses for the claims with hypotheses. -/

def c5Blob : BlobRow :=
  { uri := "b1", userId := 1, hash := "h", name := "n", snippet := "",
    path := "p", size := 3, contentType := "t", createdAt := 0,
    modifiedAt := none, timelineId := 0, historyId := 1, lastStmt := 0,
    deviceId := some "device:d1" }

def c5Store : BlobStore :=
  { blobs := [c5Blob], tombstones := [], seqs := [(1, 1)] }

def c5User : User := { id := 1, deviceId := some "d1" }

/-- Witness for C5: with every statement succeeding, deleting the only blob
commits the fully-applied store. -/
theorem claim_C5_witness :
    blobDelete true true true c5Store c5User ["b1"] =
      (blobFullDelete c5Store c5User ["b1"], none) := by
  rcases claim_C5_blob_delete_atomic c5Store c5User ["b1"] true true true
    (by decide) with ⟨_, _, _, h, _⟩ | ⟨hfalse, _⟩
  · exact h
  · simp at hfalse

def c6Row : ContactRow :=
  { id := "c1", userId := 1, emailAddress := some "e", firstName := none,
    lastName := none, createdAt := 0, modifiedAt := none, timelineId := 0,
    historyId := 1, lastStmt := 0, deviceId := none }

def c6CStore : ContactStore :=
  { contacts := [c6Row], tombstones := [], seqs := [(1, 1)] }

def c6Draft : DraftRow :=
  { id := "d1", userId := 1, messageUid := "m", parentUid := none,
    threadUid := "t", unread := false, starred := false, payload := some "p",
    labelIds := none, createdAt := 0, modifiedAt := none, timelineId := 0,
    historyId := 1, lastStmt := 0, deviceId := none }

def c6DStore : DraftStore := { drafts := [c6Draft], seqs := [(1, 1)] }

def c6User : User := { id := 1, deviceId := some "d1" }

/-- Witness for C6: updating an existing live contact to an identity no other
row carries succeeds. -/
theorem claim_C6_witness :
    ∃ stR rR, contactUpdate c6CStore c6User "c1" 7 (some "e2") none none =
      .ok (stR, rR) :=
  (claim_C6_update_notfound c6CStore c6DStore c6User "c1" "d1" 7 (some "e2")
    none none (some "p2")).2.2.1 (by decide) (by decide)

def c6xRow1 : ContactRow :=
  { id := "c1", userId := 1, emailAddress := some "a", firstName := some "f",
    lastName := some "l", createdAt := 0, modifiedAt := none,
    timelineId := 0, historyId := 1, lastStmt := 0, deviceId := none }

def c6xRow2 : ContactRow :=
  { id := "c2", userId := 1, emailAddress := some "e2",
    firstName := some "f2", lastName := some "l2", createdAt := 0,
    modifiedAt := none, timelineId := 0, historyId := 2, lastStmt := 0,
    deviceId := none }

def c6xStore : ContactStore :=
  { contacts := [c6xRow1, c6xRow2], tombstones := [], seqs := [(1, 2)] }

def c6xUser : User := { id := 1, deviceId := some "d1" }

/-- Counterexample to C6 as stated: a live matching row exists for
(user 1, id c1), yet updating it to the identity triple already carried by
the other contact c2 does not succeed — it fails with the Duplicate error
from the contact uniqueness constraint. -/
theorem claim_C6_counterexample :
    (∃ r ∈ c6xStore.contacts, r.userId = c6xUser.id ∧ r.id = "c1" ∧
      r.lastStmt ≠ 2) ∧
    contactUpdate c6xStore c6xUser "c1" 7 (some "e2") (some "f2")
      (some "l2") = .error .duplicate :=
  ⟨by decide, rfl⟩

def c7Row : ContactRow :=
  { id := "c1", userId := 1, emailAddress := some "e", firstName := none,
    lastName := none, createdAt := 0, modifiedAt := none, timelineId := 0,
    historyId := 1, lastStmt := 0, deviceId := none }

def c7Store : ContactStore :=
  { contacts := [c7Row], tombstones := [], seqs := [(1, 1)] }

def c7User : User := { id := 1, deviceId := some "d1" }

/-- Witness for C7: trashing an id that exists for no row leaves the contact
table unchanged. -/
theorem claim_C7_witness :
    (contactTrash c7Store c7User ["zz"]).contacts = c7Store.contacts :=
  ((claim_C7_bulk_best_effort c7Store c7User ["zz"]).2.2.2.1 (by decide)).1

def c8Blob : BlobRow :=
  { uri := "b1", userId := 1, hash := "h", name := "n", snippet := "",
    path := "p", size := 3, contentType := "t", createdAt := 0,
    modifiedAt := none, timelineId := 0, historyId := 1, lastStmt := 2,
    deviceId := none }

def c8Store : BlobStore :=
  { blobs := [c8Blob], tombstones := [], seqs := [(1, 1)] }

def c8User : User := { id := 1, deviceId := none }

/-- Witness for C8: looking up a trashed blob yields the zero-value record
with no error. -/
theorem claim_C8_witness :
    blobGetByUri c8Store c8User "b1" = .ok zeroBlob :=
  ((claim_C8_get_blob_not_found c8Store c8User "b1" (by decide)).1).mpr
    (by decide)

def c9Row : ContactRow :=
  { id := "c1", userId := 2, emailAddress := some "e", firstName := none,
    lastName := none, createdAt := 0, modifiedAt := none, timelineId := 0,
    historyId := 1, lastStmt := 0, deviceId := none }

def c9Store : ContactStore :=
  { contacts := [c9Row], tombstones := [], seqs := [(1, 0), (2, 1)] }

def c9Draft : DraftRow :=
  { id := "c1", userId := 2, messageUid := "m", parentUid := none,
    threadUid := "t", unread := false, starred := false, payload := some "p",
    labelIds := none, createdAt := 0, modifiedAt := none, timelineId := 0,
    historyId := 1, lastStmt := 0, deviceId := none }

def c9DStore : DraftStore := { drafts := [c9Draft], seqs := [(1, 0), (2, 1)] }

def c9User : User := { id := 1, deviceId := some "d1" }

/-- Witness for C9: user 1 trashing an id owned by user 2 leaves user 2's
rows intact. -/
theorem claim_C9_witness :
    (contactTrash c9Store c9User ["c1"]).contacts.filter
        (fun r => decide (r.userId = 2)) =
      c9Store.contacts.filter (fun r => decide (r.userId = 2)) :=
  (claim_C9_user_isolation c9Store c9DStore c9User 2 ["c1"] (by decide)).1

def c10Row : ContactRow :=
  { id := "c1", userId := 1, emailAddress := some "e", firstName := none,
    lastName := none, createdAt := 0, modifiedAt := none, timelineId := 0,
    historyId := 1, lastStmt := 1, deviceId := some "device:d0" }

def c10CStore : ContactStore :=
  { contacts := [c10Row], tombstones := [], seqs := [(1, 1)] }

def c10DStore : DraftStore := { drafts := [], seqs := [] }

def c10User : User := { id := 1, deviceId := some "d1" }

/-- Witness for C10: untrashing a never-trashed, updated (lastStmt = 1)
contact resets it to lastStmt 0 with the untrashing device's attribution and
a bumped historyId. -/
theorem claim_C10_witness :
    ∃ h : Int, seqOf c10CStore.seqs c10User.id < h ∧
      untrashStamp (getPrefixedDeviceId c10User.deviceId) c10Row h ∈
        (contactUntrash c10CStore c10User ["c1"]).contacts ∧
      (untrashStamp (getPrefixedDeviceId c10User.deviceId)
        c10Row h).lastStmt = 0 ∧
      (untrashStamp (getPrefixedDeviceId c10User.deviceId)
        c10Row h).deviceId = getPrefixedDeviceId c10User.deviceId ∧
      (∀ c : User, c.id = c10User.id →
        deviceFilter (getPrefixedDeviceId c10User.deviceId) c.deviceId =
          true →
        untrashStamp (getPrefixedDeviceId c10User.deviceId) c10Row h ∈
          (contactSync (contactUntrash c10CStore c10User ["c1"]) c
            (seqOf c10CStore.seqs c10User.id)).inserted ∧
        untrashStamp (getPrefixedDeviceId c10User.deviceId) c10Row h ∉
          (contactSync (contactUntrash c10CStore c10User ["c1"]) c
            (seqOf c10CStore.seqs c10User.id)).updated) :=
  (claim_C10_untrash_unconditional c10CStore c10DStore c10User ["c1"] c10Row
    (by decide) (by decide) (by decide)).1

end Cargomail
